import Mathlib

/-!
Shallow embedding of the smart-door example program
(`examples/complex_project/src`): the `Servo` rotary lock actuator,
the `Contractor` linear push actuator and the `SmartDoor` controller
that sequences them.  Machine integers of the source are modelled as
`Int`; every fallible operation returns `Bool × State`, mirroring the
source's boolean success indicator together with the mutated object.
Console logging of the source has no observable effect and is omitted.
-/

set_option autoImplicit false

/-- State of the rotary lock servo (`Servo.h`): current angle, the range
limits fixed by the constructor, the calibration flag and the name. -/
structure Servo where
  currentAngle : Int
  minAngle : Int
  maxAngle : Int
  isCalibrated : Bool
  name : String
deriving DecidableEq

namespace Servo

/-- `Servo::Servo(servoName)`: angle 90, range [0,180], uncalibrated. -/
def new (servoName : String) : Servo :=
  { currentAngle := 90, minAngle := 0, maxAngle := 180,
    isCalibrated := false, name := servoName }

/-- `Servo::calibrate()`: drives the servo to angle 0, marks it
calibrated and always reports success. -/
def calibrate (s : Servo) : Bool × Servo :=
  (true, { s with currentAngle := 0, isCalibrated := true })

/-- `Servo::setAngle(angle)`: fails (leaving the servo unchanged) when
the angle is outside `[minAngle, maxAngle]`; otherwise stores the angle.
The uncalibrated warning of the source is diagnostic output only. -/
def setAngle (s : Servo) (angle : Int) : Bool × Servo :=
  if angle < s.minAngle ∨ angle > s.maxAngle then
    (false, s)
  else
    (true, { s with currentAngle := angle })

/-- `Servo::getAngle()`. -/
def getAngle (s : Servo) : Int :=
  s.currentAngle

/-- `Servo::isCalibratedStatus()`. -/
def isCalibratedStatus (s : Servo) : Bool :=
  s.isCalibrated

/-- `Servo::reset()`: returns the servo to the default angle 90. -/
def reset (s : Servo) : Servo :=
  { s with currentAngle := 90 }

end Servo

/-- `Contractor::State` of `Contractor.h`. -/
inductive ContractorState where
  | RETRACTED
  | EXTENDING
  | EXTENDED
  | RETRACTING
  | ERROR
deriving DecidableEq

/-- State of the linear push actuator (`Contractor.h`). -/
structure Contractor where
  currentState : ContractorState
  currentPosition : Int
  maxExtension : Int
  isInitialized : Bool
  name : String
  speed : Int
deriving DecidableEq

namespace Contractor

/-- `Contractor::Contractor(contractorName, maxExt)`: retracted at
position 0, uninitialized, speed 5. -/
def new (contractorName : String) (maxExt : Int) : Contractor :=
  { currentState := .RETRACTED, currentPosition := 0,
    maxExtension := maxExt, isInitialized := false,
    name := contractorName, speed := 5 }

/-- `Contractor::initialize()`: homes to the retracted position 0,
marks the actuator initialized and always reports success.  (The
source passes through the transient `RETRACTING` state; the net effect
on the fields is as below.) -/
def init (c : Contractor) : Bool × Contractor :=
  (true, { c with currentState := .RETRACTED, currentPosition := 0,
                  isInitialized := true })

/-- `Contractor::extend()`: fails when uninitialized; no-op success
when already extended; otherwise moves to position 100, state
`EXTENDED` (via the transient `EXTENDING` state of the source). -/
def extend (c : Contractor) : Bool × Contractor :=
  if c.isInitialized = false then
    (false, c)
  else if c.currentState = .EXTENDED then
    (true, c)
  else
    (true, { c with currentPosition := 100, currentState := .EXTENDED })

/-- `Contractor::retract()`: symmetric to `extend`, target position 0,
state `RETRACTED`. -/
def retract (c : Contractor) : Bool × Contractor :=
  if c.isInitialized = false then
    (false, c)
  else if c.currentState = .RETRACTED then
    (true, c)
  else
    (true, { c with currentPosition := 0, currentState := .RETRACTED })

/-- `Contractor::stop()`: only when the actuator is mid-motion
(`EXTENDING` or `RETRACTING`) does it snap the state to `EXTENDED`
(position > 50) or `RETRACTED` (otherwise); in every other state it
changes nothing.  The position itself is never modified. -/
def stop (c : Contractor) : Contractor :=
  if c.currentState = .EXTENDING ∨ c.currentState = .RETRACTING then
    { c with currentState :=
        if c.currentPosition > 50 then .EXTENDED else .RETRACTED }
  else
    c

/-- `Contractor::getState()`. -/
def getState (c : Contractor) : ContractorState :=
  c.currentState

/-- `Contractor::getPosition()`. -/
def getPosition (c : Contractor) : Int :=
  c.currentPosition

/-- `Contractor::setSpeed(newSpeed)`: fails outside `[1,10]`. -/
def setSpeed (c : Contractor) (newSpeed : Int) : Bool × Contractor :=
  if newSpeed < 1 ∨ newSpeed > 10 then
    (false, c)
  else
    (true, { c with speed := newSpeed })

/-- `Contractor::isReady()`: initialized and not in the error state. -/
def isReady (c : Contractor) : Bool :=
  c.isInitialized && decide (c.currentState ≠ .ERROR)

end Contractor

/-- States of a `Contractor` reachable from a freshly constructed one
through its public mutating operations. -/
inductive Contractor.Reachable : Contractor → Prop where
  | base (n : String) (m : Int) : Contractor.Reachable (Contractor.new n m)
  | step_init {c : Contractor} :
      Contractor.Reachable c → Contractor.Reachable c.init.2
  | step_extend {c : Contractor} :
      Contractor.Reachable c → Contractor.Reachable c.extend.2
  | step_retract {c : Contractor} :
      Contractor.Reachable c → Contractor.Reachable c.retract.2
  | step_stop {c : Contractor} :
      Contractor.Reachable c → Contractor.Reachable c.stop
  | step_setSpeed {c : Contractor} (n : Int) :
      Contractor.Reachable c → Contractor.Reachable (c.setSpeed n).2

/-- Inductive invariant of the reachable `Contractor` states: the
motion state is settled and never `ERROR`, the position is 0 or 100
and is 100 exactly in the `EXTENDED` state, and an uninitialized
actuator still sits retracted at 0. -/
def Contractor.Inv (c : Contractor) : Prop :=
  (c.currentState = .RETRACTED ∨ c.currentState = .EXTENDED) ∧
  (c.currentPosition = 0 ∨ c.currentPosition = 100) ∧
  (c.currentPosition = 100 ↔ c.currentState = .EXTENDED) ∧
  (c.isInitialized = false →
     c.currentPosition = 0 ∧ c.currentState = .RETRACTED)

/-- `SmartDoor::DoorState` of `SmartDoor.h`. -/
inductive DoorState where
  | CLOSED_LOCKED
  | CLOSED_UNLOCKED
  | OPENING
  | OPEN
  | CLOSING
  | ERROR_STATE
deriving DecidableEq

/-- State of the smart-door controller (`SmartDoor.h`): the owned
servo and actuator, the door state, the system-ready flag, the door id
and the failed-open-attempt counter. -/
structure SmartDoor where
  lockServo : Servo
  doorActuator : Contractor
  currentState : DoorState
  isSystemReady : Bool
  doorId : String
  openAttempts : Int
deriving DecidableEq

namespace SmartDoor

/-- `SmartDoor::MAX_ATTEMPTS`. -/
def MAX_ATTEMPTS : Int := 3

/-- `SmartDoor::SmartDoor(id)`: closed-locked, not ready, zero failed
attempts, owning a fresh servo and a fresh 250mm contractor. -/
def new (id : String) : SmartDoor :=
  { lockServo := Servo.new ("LockServo_" ++ id),
    doorActuator := Contractor.new ("DoorActuator_" ++ id) 250,
    currentState := .CLOSED_LOCKED, isSystemReady := false,
    doorId := id, openAttempts := 0 }

/-- `SmartDoor::lockDoor()`: drives the lock servo to 0 degrees;
propagates the servo's success flag. -/
def lockDoor (d : SmartDoor) : Bool × SmartDoor :=
  let r := d.lockServo.setAngle 0
  (r.1, { d with lockServo := r.2 })

/-- `SmartDoor::unlockDoor()`: drives the lock servo to 90 degrees;
propagates the servo's success flag. -/
def unlockDoor (d : SmartDoor) : Bool × SmartDoor :=
  let r := d.lockServo.setAngle 90
  (r.1, { d with lockServo := r.2 })

/-- `SmartDoor::isSafeToOperate()`: system ready, not in the error
state, servo calibrated and actuator ready. -/
def isSafeToOperate (d : SmartDoor) : Bool :=
  d.isSystemReady && decide (d.currentState ≠ .ERROR_STATE) &&
    d.lockServo.isCalibratedStatus && d.doorActuator.isReady

/-- `SmartDoor::initialize()`: calibrates the servo, initializes the
contractor, locks the door; any sub-step failure forces `ERROR_STATE`
and reports failure; on success the system is ready, closed-locked,
with the attempt counter cleared. -/
def init (d : SmartDoor) : Bool × SmartDoor :=
  let rc := d.lockServo.calibrate
  if rc.1 = false then
    (false, { d with lockServo := rc.2, currentState := .ERROR_STATE })
  else
    let d1 : SmartDoor := { d with lockServo := rc.2 }
    let ra := d1.doorActuator.init
    if ra.1 = false then
      (false, { d1 with doorActuator := ra.2, currentState := .ERROR_STATE })
    else
      let d2 : SmartDoor := { d1 with doorActuator := ra.2 }
      let rl := d2.lockDoor
      if rl.1 = false then
        (false, { rl.2 with currentState := .ERROR_STATE })
      else
        (true, { rl.2 with isSystemReady := true,
                           currentState := .CLOSED_LOCKED,
                           openAttempts := 0 })

/-- `SmartDoor::open()`: on a failed safety precondition increments
`openAttempts` and forces `ERROR_STATE` once the counter reaches
`MAX_ATTEMPTS`; no-op success when already open; otherwise unlock,
extend, and land in `OPEN` with the counter cleared, any sub-step
failure forcing `ERROR_STATE`. -/
def openDoor (d : SmartDoor) : Bool × SmartDoor :=
  if d.isSafeToOperate = false then
    let a := d.openAttempts + 1
    (false, { d with openAttempts := a,
                     currentState :=
                       if a ≥ MAX_ATTEMPTS then .ERROR_STATE
                       else d.currentState })
  else if d.currentState = .OPEN then
    (true, d)
  else
    let d1 : SmartDoor := { d with currentState := .OPENING }
    let ru := d1.unlockDoor
    if ru.1 = false then
      (false, { ru.2 with currentState := .ERROR_STATE })
    else
      let d2 : SmartDoor := { ru.2 with currentState := .CLOSED_UNLOCKED }
      let re := d2.doorActuator.extend
      if re.1 = false then
        (false, { d2 with doorActuator := re.2, currentState := .ERROR_STATE })
      else
        (true, { d2 with doorActuator := re.2, currentState := .OPEN,
                         openAttempts := 0 })

/-- `SmartDoor::close()`: gated by the safety precondition (without
touching the attempt counter); no-op success when already
closed-locked; otherwise retract, lock, and land in `CLOSED_LOCKED`,
any sub-step failure forcing `ERROR_STATE`. -/
def closeDoor (d : SmartDoor) : Bool × SmartDoor :=
  if d.isSafeToOperate = false then
    (false, d)
  else if d.currentState = .CLOSED_LOCKED then
    (true, d)
  else
    let d1 : SmartDoor := { d with currentState := .CLOSING }
    let rr := d1.doorActuator.retract
    if rr.1 = false then
      (false, { d1 with doorActuator := rr.2, currentState := .ERROR_STATE })
    else
      let d2 : SmartDoor := { d1 with doorActuator := rr.2,
                                      currentState := .CLOSED_UNLOCKED }
      let rl := d2.lockDoor
      if rl.1 = false then
        (false, { rl.2 with currentState := .ERROR_STATE })
      else
        (true, { rl.2 with currentState := .CLOSED_LOCKED })

/-- `SmartDoor::emergencyStop()`: stops the actuator, then the door
state becomes `OPEN` when the actuator position exceeds 50 and
`CLOSED_UNLOCKED` otherwise. -/
def emergencyStop (d : SmartDoor) : SmartDoor :=
  let a := d.doorActuator.stop
  { d with doorActuator := a,
           currentState :=
             if a.getPosition > 50 then .OPEN else .CLOSED_UNLOCKED }

/-- `SmartDoor::getState()`. -/
def getState (d : SmartDoor) : DoorState :=
  d.currentState

/-- `SmartDoor::isReady()`. -/
def isReady (d : SmartDoor) : Bool :=
  d.isSystemReady && decide (d.currentState ≠ .ERROR_STATE)

/-- `SmartDoor::reset()`: when not closed-locked, first closes the
door, propagating a failure; then clears the ready flag and re-runs
initialization. -/
def reset (d : SmartDoor) : Bool × SmartDoor :=
  if d.currentState ≠ .CLOSED_LOCKED then
    let rc := d.closeDoor
    if rc.1 = false then
      (false, rc.2)
    else
      SmartDoor.init { rc.2 with isSystemReady := false }
  else
    SmartDoor.init { d with isSystemReady := false }

end SmartDoor

/-- States of a `SmartDoor` reachable from a freshly constructed one
through its public mutating operations. -/
inductive SmartDoor.Reachable : SmartDoor → Prop where
  | base (id : String) : SmartDoor.Reachable (SmartDoor.new id)
  | step_init {d : SmartDoor} :
      SmartDoor.Reachable d → SmartDoor.Reachable d.init.2
  | step_open {d : SmartDoor} :
      SmartDoor.Reachable d → SmartDoor.Reachable d.openDoor.2
  | step_close {d : SmartDoor} :
      SmartDoor.Reachable d → SmartDoor.Reachable d.closeDoor.2
  | step_estop {d : SmartDoor} :
      SmartDoor.Reachable d → SmartDoor.Reachable d.emergencyStop
  | step_reset {d : SmartDoor} :
      SmartDoor.Reachable d → SmartDoor.Reachable d.reset.2

/-- Inductive invariant of the reachable `SmartDoor` states.  The
servo range is pinned to [0,180]; the calibration and actuator
initialization flags track the system-ready flag; the attempt counter
is non-negative.  Once the system is ready the controller is in one of
exactly three shapes (closed-locked, closed-unlocked after an
emergency stop, or open) with the servo angle and actuator position
determined by the door state, and the attempt counter is 0.  Before
the system is ready nothing has moved: the servo still sits at its
construction angle 90, the actuator at 0, and the door state is
closed-locked, closed-unlocked or the error state. -/
def SmartDoor.Inv (d : SmartDoor) : Prop :=
  d.lockServo.minAngle = 0 ∧ d.lockServo.maxAngle = 180 ∧
  d.lockServo.isCalibrated = d.isSystemReady ∧
  d.doorActuator.isInitialized = d.isSystemReady ∧
  0 ≤ d.openAttempts ∧
  (if d.isSystemReady = true then
    d.openAttempts = 0 ∧
    ((d.currentState = .CLOSED_LOCKED ∧ d.lockServo.currentAngle = 0 ∧
        d.doorActuator.currentPosition = 0 ∧
        d.doorActuator.currentState = .RETRACTED) ∨
     (d.currentState = .CLOSED_UNLOCKED ∧ d.lockServo.currentAngle = 0 ∧
        d.doorActuator.currentPosition = 0 ∧
        d.doorActuator.currentState = .RETRACTED) ∨
     (d.currentState = .OPEN ∧ d.lockServo.currentAngle = 90 ∧
        d.doorActuator.currentPosition = 100 ∧
        d.doorActuator.currentState = .EXTENDED))
  else
    d.lockServo.currentAngle = 90 ∧ d.doorActuator.currentPosition = 0 ∧
    d.doorActuator.currentState = .RETRACTED ∧
    (d.currentState = .CLOSED_LOCKED ∨ d.currentState = .CLOSED_UNLOCKED ∨
     d.currentState = .ERROR_STATE))

theorem Contractor.inv_mk (n : String) (m : Int) : (Contractor.new n m).Inv := by
  simp [Contractor.new, Contractor.Inv]

theorem Contractor.inv_homing {c : Contractor} : c.init.2.Inv := by
  obtain ⟨st, pos, mx, ini, nm, sp⟩ := c
  simp [Contractor.init, Contractor.Inv]

theorem Contractor.inv_extend {c : Contractor} (h : c.Inv) : c.extend.2.Inv := by
  obtain ⟨st, pos, mx, ini, nm, sp⟩ := c
  simp only [Contractor.Inv] at h
  obtain ⟨h1, h2, h3, h4⟩ := h
  cases ini with
  | false => simp_all [Contractor.extend, Contractor.Inv]
  | true =>
    rcases h1 with h1 | h1 <;> subst h1 <;>
      simp_all [Contractor.extend, Contractor.Inv]

theorem Contractor.inv_retract {c : Contractor} (h : c.Inv) : c.retract.2.Inv := by
  obtain ⟨st, pos, mx, ini, nm, sp⟩ := c
  simp only [Contractor.Inv] at h
  obtain ⟨h1, h2, h3, h4⟩ := h
  cases ini with
  | false => simp_all [Contractor.retract, Contractor.Inv]
  | true =>
    rcases h1 with h1 | h1 <;> subst h1 <;>
      simp_all [Contractor.retract, Contractor.Inv]

theorem Contractor.inv_stop {c : Contractor} (h : c.Inv) : c.stop.Inv := by
  obtain ⟨st, pos, mx, ini, nm, sp⟩ := c
  simp only [Contractor.Inv] at h
  obtain ⟨h1, h2, h3, h4⟩ := h
  rcases h1 with h1 | h1 <;> subst h1 <;>
    simp_all [Contractor.stop, Contractor.Inv]

theorem Contractor.inv_setSpeed {c : Contractor} (n : Int) (h : c.Inv) :
    (c.setSpeed n).2.Inv := by
  obtain ⟨st, pos, mx, ini, nm, sp⟩ := c
  simp only [Contractor.Inv] at h
  obtain ⟨h1, h2, h3, h4⟩ := h
  unfold Contractor.setSpeed
  split <;> simp_all [Contractor.Inv]

theorem Contractor.inv_of_reachable {c : Contractor} (h : c.Reachable) : c.Inv := by
  induction h with
  | base n m => exact inv_mk n m
  | step_init _ _ => exact inv_homing
  | step_extend _ ih => exact inv_extend ih
  | step_retract _ ih => exact inv_retract ih
  | step_stop _ ih => exact inv_stop ih
  | step_setSpeed n _ ih => exact inv_setSpeed n ih

theorem SmartDoor.inv_new (id : String) : (SmartDoor.new id).Inv := by
  simp [SmartDoor.new, Servo.new, Contractor.new, SmartDoor.Inv]

theorem SmartDoor.inv_init {d : SmartDoor} (h : d.Inv) : d.init.2.Inv := by
  obtain ⟨⟨sa, smin, smax, scal, snm⟩, ⟨ast, apos, amx, aini, anm, asp⟩,
    s, r, i, o⟩ := d
  simp only [SmartDoor.Inv] at h
  obtain ⟨h1, h2, h3, h4, h5, h6⟩ := h
  subst h1; subst h2
  simp +decide [SmartDoor.init, Servo.calibrate, Contractor.init,
    SmartDoor.lockDoor, Servo.setAngle, SmartDoor.Inv]

theorem SmartDoor.inv_open {d : SmartDoor} (h : d.Inv) : d.openDoor.2.Inv := by
  obtain ⟨⟨sa, smin, smax, scal, snm⟩, ⟨ast, apos, amx, aini, anm, asp⟩,
    s, r, i, o⟩ := d
  simp only [SmartDoor.Inv] at h
  obtain ⟨h1, h2, h3, h4, h5, h6⟩ := h
  subst h1; subst h2; subst h3; subst h4
  cases aini with
  | false =>
    rw [if_neg (by simp)] at h6
    obtain ⟨e1, e2, e3, e4⟩ := h6
    subst e1; subst e2; subst e3
    simp +decide [SmartDoor.openDoor, SmartDoor.isSafeToOperate,
      Servo.isCalibratedStatus, Contractor.isReady, SmartDoor.Inv,
      SmartDoor.MAX_ATTEMPTS]
    constructor
    · omega
    · rcases e4 with e4 | e4 | e4 <;> subst e4 <;> split <;> simp_all
  | true =>
    rw [if_pos rfl] at h6
    obtain ⟨ho, hd⟩ := h6
    subst ho
    rcases hd with ⟨e1, e2, e3, e4⟩ | ⟨e1, e2, e3, e4⟩ | ⟨e1, e2, e3, e4⟩ <;>
      subst e1 <;> subst e2 <;> subst e3 <;> subst e4 <;>
      simp +decide [SmartDoor.openDoor, SmartDoor.isSafeToOperate,
        Servo.isCalibratedStatus, Contractor.isReady, SmartDoor.unlockDoor,
        Servo.setAngle, Contractor.extend, SmartDoor.Inv,
        SmartDoor.MAX_ATTEMPTS]

theorem SmartDoor.inv_close {d : SmartDoor} (h : d.Inv) : d.closeDoor.2.Inv := by
  obtain ⟨⟨sa, smin, smax, scal, snm⟩, ⟨ast, apos, amx, aini, anm, asp⟩,
    s, r, i, o⟩ := d
  simp only [SmartDoor.Inv] at h
  obtain ⟨h1, h2, h3, h4, h5, h6⟩ := h
  subst h1; subst h2; subst h3; subst h4
  cases aini with
  | false =>
    rw [if_neg (by simp)] at h6
    obtain ⟨e1, e2, e3, e4⟩ := h6
    subst e1; subst e2; subst e3
    simp +decide [SmartDoor.closeDoor, SmartDoor.isSafeToOperate,
      Servo.isCalibratedStatus, Contractor.isReady, SmartDoor.Inv]
    exact ⟨h5, e4⟩
  | true =>
    rw [if_pos rfl] at h6
    obtain ⟨ho, hd⟩ := h6
    subst ho
    rcases hd with ⟨e1, e2, e3, e4⟩ | ⟨e1, e2, e3, e4⟩ | ⟨e1, e2, e3, e4⟩ <;>
      subst e1 <;> subst e2 <;> subst e3 <;> subst e4 <;>
      simp +decide [SmartDoor.closeDoor, SmartDoor.isSafeToOperate,
        Servo.isCalibratedStatus, Contractor.isReady, Contractor.retract,
        SmartDoor.lockDoor, Servo.setAngle, SmartDoor.Inv]

theorem SmartDoor.inv_estop {d : SmartDoor} (h : d.Inv) : d.emergencyStop.Inv := by
  obtain ⟨⟨sa, smin, smax, scal, snm⟩, ⟨ast, apos, amx, aini, anm, asp⟩,
    s, r, i, o⟩ := d
  simp only [SmartDoor.Inv] at h
  obtain ⟨h1, h2, h3, h4, h5, h6⟩ := h
  subst h1; subst h2; subst h3; subst h4
  cases aini with
  | false =>
    rw [if_neg (by simp)] at h6
    obtain ⟨e1, e2, e3, e4⟩ := h6
    subst e1; subst e2; subst e3
    simp +decide [SmartDoor.emergencyStop, Contractor.stop,
      Contractor.getPosition, SmartDoor.Inv]
    exact h5
  | true =>
    rw [if_pos rfl] at h6
    obtain ⟨ho, hd⟩ := h6
    subst ho
    rcases hd with ⟨e1, e2, e3, e4⟩ | ⟨e1, e2, e3, e4⟩ | ⟨e1, e2, e3, e4⟩ <;>
      subst e1 <;> subst e2 <;> subst e3 <;> subst e4 <;>
      simp +decide [SmartDoor.emergencyStop, Contractor.stop,
        Contractor.getPosition, SmartDoor.Inv]

theorem SmartDoor.inv_reset {d : SmartDoor} (h : d.Inv) : d.reset.2.Inv := by
  obtain ⟨⟨sa, smin, smax, scal, snm⟩, ⟨ast, apos, amx, aini, anm, asp⟩,
    s, r, i, o⟩ := d
  simp only [SmartDoor.Inv] at h
  obtain ⟨h1, h2, h3, h4, h5, h6⟩ := h
  subst h1; subst h2; subst h3; subst h4
  cases aini with
  | false =>
    rw [if_neg (by simp)] at h6
    obtain ⟨e1, e2, e3, e4⟩ := h6
    subst e1; subst e2; subst e3
    rcases e4 with e4 | e4 | e4 <;> subst e4 <;>
      simp +decide [SmartDoor.reset, SmartDoor.closeDoor,
        SmartDoor.isSafeToOperate, Servo.isCalibratedStatus,
        Contractor.isReady, SmartDoor.init, Servo.calibrate, Contractor.init,
        SmartDoor.lockDoor, Servo.setAngle, SmartDoor.Inv] <;>
      omega
  | true =>
    rw [if_pos rfl] at h6
    obtain ⟨ho, hd⟩ := h6
    subst ho
    rcases hd with ⟨e1, e2, e3, e4⟩ | ⟨e1, e2, e3, e4⟩ | ⟨e1, e2, e3, e4⟩ <;>
      subst e1 <;> subst e2 <;> subst e3 <;> subst e4 <;>
      simp +decide [SmartDoor.reset, SmartDoor.closeDoor,
        SmartDoor.isSafeToOperate, Servo.isCalibratedStatus,
        Contractor.isReady, Contractor.retract, SmartDoor.init,
        Servo.calibrate, Contractor.init, SmartDoor.lockDoor,
        Servo.setAngle, SmartDoor.Inv]

theorem SmartDoor.inv_reachable {d : SmartDoor} (h : d.Reachable) : d.Inv := by
  induction h with
  | base id => exact inv_new id
  | step_init _ ih => exact inv_init ih
  | step_open _ ih => exact inv_open ih
  | step_close _ ih => exact inv_close ih
  | step_estop _ ih => exact inv_estop ih
  | step_reset _ ih => exact inv_reset ih

theorem SmartDoor.open_unsafe_eq {d : SmartDoor} (hu : d.isSafeToOperate = false) :
    d.openDoor = (false,
      { d with openAttempts := d.openAttempts + 1,
               currentState :=
                 if d.openAttempts + 1 ≥ SmartDoor.MAX_ATTEMPTS
                 then .ERROR_STATE else d.currentState }) := by
  unfold SmartDoor.openDoor
  rw [if_pos hu]

theorem SmartDoor.unsafe_of_not_ready {d : SmartDoor} (h : d.isSystemReady = false) :
    d.isSafeToOperate = false := by
  simp [SmartDoor.isSafeToOperate, h]

theorem SmartDoor.safe_of_ready {d : SmartDoor} (hinv : d.Inv)
    (h : d.isSystemReady = true) : d.isSafeToOperate = true := by
  obtain ⟨⟨sa, smin, smax, scal, snm⟩, ⟨ast, apos, amx, aini, anm, asp⟩,
    s, r, i, o⟩ := d
  simp only [SmartDoor.Inv] at hinv
  obtain ⟨h1, h2, h3, h4, h5, h6⟩ := hinv
  subst h3; subst h4
  simp only at h
  subst h
  rw [if_pos rfl] at h6
  obtain ⟨ho, hd⟩ := h6
  rcases hd with ⟨e1, e2, e3, e4⟩ | ⟨e1, e2, e3, e4⟩ | ⟨e1, e2, e3, e4⟩ <;>
    subst e1 <;> subst e4 <;>
    simp +decide [SmartDoor.isSafeToOperate, Servo.isCalibratedStatus,
      Contractor.isReady]

theorem SmartDoor.ready_false_of_unsafe {d : SmartDoor} (hinv : d.Inv)
    (hu : d.isSafeToOperate = false) : d.isSystemReady = false := by
  cases hready : d.isSystemReady with
  | false => rfl
  | true => rw [SmartDoor.safe_of_ready hinv hready] at hu; exact absurd hu (by simp)

theorem SmartDoor.failed_open_fields {d : SmartDoor}
    (hu : d.isSafeToOperate = false) :
    d.openDoor.2.isSystemReady = d.isSystemReady ∧
    d.openDoor.2.openAttempts = d.openAttempts + 1 := by
  rw [SmartDoor.open_unsafe_eq hu]
  exact ⟨rfl, rfl⟩

theorem SmartDoor.three_failed_opens {d : SmartDoor} (hinv : d.Inv)
    (hu : d.isSafeToOperate = false) :
    d.openDoor.2.openDoor.2.openDoor.2.currentState = .ERROR_STATE := by
  have h0 : 0 ≤ d.openAttempts := hinv.2.2.2.2.1
  have hr0 : d.isSystemReady = false := SmartDoor.ready_false_of_unsafe hinv hu
  have hu1 : d.openDoor.2.isSafeToOperate = false :=
    SmartDoor.unsafe_of_not_ready
      (by rw [(SmartDoor.failed_open_fields hu).1]; exact hr0)
  have hu2 : d.openDoor.2.openDoor.2.isSafeToOperate = false :=
    SmartDoor.unsafe_of_not_ready
      (by rw [(SmartDoor.failed_open_fields hu1).1,
              (SmartDoor.failed_open_fields hu).1]; exact hr0)
  have ha2 : d.openDoor.2.openDoor.2.openAttempts = d.openAttempts + 1 + 1 := by
    rw [(SmartDoor.failed_open_fields hu1).2, (SmartDoor.failed_open_fields hu).2]
  rw [SmartDoor.open_unsafe_eq hu2]
  dsimp only
  rw [if_pos]
  unfold SmartDoor.MAX_ATTEMPTS
  omega

theorem SmartDoor.close_attempts_eq (d : SmartDoor) :
    d.closeDoor.2.openAttempts = d.openAttempts := by
  unfold SmartDoor.closeDoor
  split
  · rfl
  · split
    · rfl
    · dsimp only
      split
      · rfl
      · split <;> rfl

theorem SmartDoor.init_attempts (d : SmartDoor) :
    d.init.2.openAttempts = d.openAttempts ∨ d.init.2.openAttempts = 0 := by
  unfold SmartDoor.init
  dsimp only
  split
  · exact Or.inl rfl
  · split
    · exact Or.inl rfl
    · split
      · exact Or.inl rfl
      · exact Or.inr rfl

theorem SmartDoor.estop_attempts (d : SmartDoor) :
    d.emergencyStop.openAttempts = d.openAttempts := rfl

theorem SmartDoor.reset_attempts (d : SmartDoor) :
    d.reset.2.openAttempts = d.openAttempts ∨ d.reset.2.openAttempts = 0 := by
  unfold SmartDoor.reset
  split
  · dsimp only
    split
    · rw [SmartDoor.close_attempts_eq]
      exact Or.inl rfl
    · rcases SmartDoor.init_attempts
        { d.closeDoor.2 with isSystemReady := false } with h | h
      · left
        rw [h]
        exact SmartDoor.close_attempts_eq d
      · right
        exact h
  · exact SmartDoor.init_attempts _

theorem SmartDoor.safe_open_attempts {d : SmartDoor}
    (hs : d.isSafeToOperate = true) :
    d.openDoor.2.openAttempts = d.openAttempts ∨
    d.openDoor.2.openAttempts = 0 := by
  unfold SmartDoor.openDoor
  rw [if_neg (by simp [hs])]
  split
  · exact Or.inl rfl
  · dsimp only
    split
    · exact Or.inl rfl
    · split
      · exact Or.inl rfl
      · exact Or.inr rfl

theorem SmartDoor.open_true_attempts {d : SmartDoor} (hinv : d.Inv)
    (ht : d.openDoor.1 = true) : d.openDoor.2.openAttempts = 0 := by
  cases hready : d.isSystemReady with
  | false =>
    rw [SmartDoor.open_unsafe_eq (SmartDoor.unsafe_of_not_ready hready)] at ht
    exact absurd ht (by simp)
  | true =>
    have h0 : d.openAttempts = 0 := by
      have h6 := hinv.2.2.2.2.2
      rw [hready, if_pos rfl] at h6
      exact h6.1
    rcases SmartDoor.safe_open_attempts
        (SmartDoor.safe_of_ready hinv hready) with h | h
    · rw [h, h0]
    · exact h

/-- C1: a call to `open()` that fails the `isSafeToOperate` safety
precondition returns failure and increments `openAttempts`, forcing
`ERROR_STATE` as soon as the counter reaches the fixed threshold
`MAX_ATTEMPTS = 3` (so three consecutive unsafe `open()` calls leave
the controller in `ERROR_STATE` after the third); no other public
operation ever increases the counter (each leaves it unchanged or
clears it to 0, as does an `open()` that passes the precondition); and
any `open()` call that returns success leaves `openAttempts = 0`. -/
theorem C1_open_attempt_counting (d : SmartDoor) (hr : d.Reachable) :
    (d.isSafeToOperate = false →
       d.openDoor = (false,
         { d with openAttempts := d.openAttempts + 1,
                  currentState :=
                    if d.openAttempts + 1 ≥ SmartDoor.MAX_ATTEMPTS
                    then .ERROR_STATE else d.currentState })) ∧
    (d.isSafeToOperate = false →
       d.openDoor.2.openDoor.2.openDoor.2.currentState = .ERROR_STATE) ∧
    (d.openDoor.1 = true → d.openDoor.2.openAttempts = 0) ∧
    (d.init.2.openAttempts = d.openAttempts ∨ d.init.2.openAttempts = 0) ∧
    d.closeDoor.2.openAttempts = d.openAttempts ∧
    d.emergencyStop.openAttempts = d.openAttempts ∧
    (d.reset.2.openAttempts = d.openAttempts ∨ d.reset.2.openAttempts = 0) ∧
    (d.isSafeToOperate = true →
       d.openDoor.2.openAttempts = d.openAttempts ∨
       d.openDoor.2.openAttempts = 0) := by
  have hinv := SmartDoor.inv_reachable hr
  exact ⟨fun hu => SmartDoor.open_unsafe_eq hu,
         fun hu => SmartDoor.three_failed_opens hinv hu,
         fun ht => SmartDoor.open_true_attempts hinv ht,
         SmartDoor.init_attempts d,
         SmartDoor.close_attempts_eq d,
         SmartDoor.estop_attempts d,
         SmartDoor.reset_attempts d,
         fun hs => SmartDoor.safe_open_attempts hs⟩

theorem C1_witness :
    (SmartDoor.new "W1").isSafeToOperate = false ∧
    (SmartDoor.new "W1").openDoor.2.openDoor.2.openDoor.2.currentState =
      DoorState.ERROR_STATE :=
  ⟨by decide,
   (C1_open_attempt_counting (SmartDoor.new "W1")
      (SmartDoor.Reachable.base "W1")).2.1 (by decide)⟩

/-- C2 (counterexample): the state reached from a freshly constructed
controller by one public operation (a failed `open()`) has
`currentState = CLOSED_LOCKED`, yet the lock servo still sits at its
construction angle 90, not the locked value 0 — so the claimed
invariant fails on reachable states that precede initialization. -/
theorem C2_counterexample :
    SmartDoor.Reachable (SmartDoor.new "D1").openDoor.2 ∧
    (SmartDoor.new "D1").openDoor.2.currentState = DoorState.CLOSED_LOCKED ∧
    (SmartDoor.new "D1").openDoor.2.lockServo.getAngle = 90 ∧
    ¬(SmartDoor.new "D1").openDoor.2.lockServo.getAngle = 0 :=
  ⟨SmartDoor.Reachable.step_open (SmartDoor.Reachable.base "D1"),
   by decide, by decide, by decide⟩

/-- C2 (amended): in every reachable controller state,
`CLOSED_LOCKED` together with the system being ready implies the lock
angle is the locked value 0 and the actuator position is 0, and `OPEN`
implies the lock angle is the unlocked value 90 and the actuator
position is 100. -/
theorem C2_state_invariant (d : SmartDoor) (hr : d.Reachable) :
    (d.isSystemReady = true → d.currentState = .CLOSED_LOCKED →
       d.lockServo.getAngle = 0 ∧ d.doorActuator.getPosition = 0) ∧
    (d.currentState = .OPEN →
       d.lockServo.getAngle = 90 ∧ d.doorActuator.getPosition = 100) := by
  have hinv := SmartDoor.inv_reachable hr
  obtain ⟨⟨sa, smin, smax, scal, snm⟩, ⟨ast, apos, amx, aini, anm, asp⟩,
    s, r, i, o⟩ := d
  simp only [SmartDoor.Inv] at hinv
  obtain ⟨h1, h2, h3, h4, h5, h6⟩ := hinv
  subst h3; subst h4
  cases aini with
  | false =>
    rw [if_neg (by simp)] at h6
    obtain ⟨e1, e2, e3, e4⟩ := h6
    constructor
    · intro hready
      exact absurd hready (by simp)
    · intro hopen
      rcases e4 with e4 | e4 | e4 <;> subst e4 <;> simp_all
  | true =>
    rw [if_pos rfl] at h6
    obtain ⟨ho, hd⟩ := h6
    constructor
    · intro _ hcl
      rcases hd with ⟨e1, e2, e3, e4⟩ | ⟨e1, e2, e3, e4⟩ | ⟨e1, e2, e3, e4⟩ <;>
        subst e1 <;> simp_all [Servo.getAngle, Contractor.getPosition]
    · intro hopen
      rcases hd with ⟨e1, e2, e3, e4⟩ | ⟨e1, e2, e3, e4⟩ | ⟨e1, e2, e3, e4⟩ <;>
        subst e1 <;> simp_all [Servo.getAngle, Contractor.getPosition]

theorem C2_witness :
    (SmartDoor.new "W2").init.2.lockServo.getAngle = 0 ∧
    (SmartDoor.new "W2").init.2.doorActuator.getPosition = 0 :=
  (C2_state_invariant (SmartDoor.new "W2").init.2
     (SmartDoor.Reachable.step_init (SmartDoor.Reachable.base "W2"))).1
    (by decide) (by decide)

/-- C3: from any reachable state satisfying the `isSafeToOperate`
precondition, `open()` and `close()` both return success and never set
`ERROR_STATE`: the mid-sequence failure branches (unlock, extend,
retract, lock failing) are unreachable there, because the servo
targets 0 and 90 lie in the range [0,180] and the actuator is ready. -/
theorem C3_safe_no_error (d : SmartDoor) (hr : d.Reachable)
    (hs : d.isSafeToOperate = true) :
    d.openDoor.1 = true ∧ d.openDoor.2.currentState ≠ .ERROR_STATE ∧
    d.closeDoor.1 = true ∧ d.closeDoor.2.currentState ≠ .ERROR_STATE := by
  have hinv := SmartDoor.inv_reachable hr
  have hready : d.isSystemReady = true := by
    cases hready : d.isSystemReady with
    | true => rfl
    | false =>
      rw [SmartDoor.unsafe_of_not_ready hready] at hs
      exact absurd hs (by simp)
  obtain ⟨⟨sa, smin, smax, scal, snm⟩, ⟨ast, apos, amx, aini, anm, asp⟩,
    s, r, i, o⟩ := d
  simp only [SmartDoor.Inv] at hinv
  obtain ⟨h1, h2, h3, h4, h5, h6⟩ := hinv
  subst h1; subst h2; subst h3; subst h4
  simp only at hready
  subst hready
  rw [if_pos rfl] at h6
  obtain ⟨ho, hd⟩ := h6
  subst ho
  rcases hd with ⟨e1, e2, e3, e4⟩ | ⟨e1, e2, e3, e4⟩ | ⟨e1, e2, e3, e4⟩ <;>
    subst e1 <;> subst e2 <;> subst e3 <;> subst e4 <;>
    simp +decide [SmartDoor.openDoor, SmartDoor.closeDoor,
      SmartDoor.isSafeToOperate, Servo.isCalibratedStatus,
      Contractor.isReady, SmartDoor.unlockDoor, SmartDoor.lockDoor,
      Servo.setAngle, Contractor.extend, Contractor.retract]

theorem C3_witness :
    (SmartDoor.new "W3").init.2.openDoor.1 = true ∧
    (SmartDoor.new "W3").init.2.openDoor.2.currentState ≠
      DoorState.ERROR_STATE ∧
    (SmartDoor.new "W3").init.2.closeDoor.1 = true ∧
    (SmartDoor.new "W3").init.2.closeDoor.2.currentState ≠
      DoorState.ERROR_STATE :=
  C3_safe_no_error (SmartDoor.new "W3").init.2
    (SmartDoor.Reachable.step_init (SmartDoor.Reachable.base "W3"))
    (by decide)

/-- C4: whenever the controller is in `ERROR_STATE`, `reset()` returns
failure and leaves the whole controller state unchanged, because
`reset()` goes through `close()`, whose `isSafeToOperate` gate rejects
`ERROR_STATE`. -/
theorem C4_reset_in_error_state (d : SmartDoor)
    (h : d.currentState = .ERROR_STATE) : d.reset = (false, d) := by
  unfold SmartDoor.reset SmartDoor.closeDoor SmartDoor.isSafeToOperate
  simp [h]

theorem C4_witness :
    ({ SmartDoor.new "E" with currentState := DoorState.ERROR_STATE }
        : SmartDoor).reset =
      (false,
       { SmartDoor.new "E" with currentState := DoorState.ERROR_STATE }) :=
  C4_reset_in_error_state _ rfl

/-- C5 (counterexample): the `ERROR` motion state is neither `EXTENDED`
nor `RETRACTED`, yet at position 60 (> 50) `stop()` leaves the state
`ERROR` instead of applying the claimed midpoint snap to `EXTENDED`. -/
theorem C5_counterexample :
    ({ currentState := ContractorState.ERROR, currentPosition := 60,
       maxExtension := 200, isInitialized := true, name := "A",
       speed := 5 } : Contractor).currentState ≠ ContractorState.EXTENDED ∧
    ({ currentState := ContractorState.ERROR, currentPosition := 60,
       maxExtension := 200, isInitialized := true, name := "A",
       speed := 5 } : Contractor).currentState ≠ ContractorState.RETRACTED ∧
    ({ currentState := ContractorState.ERROR, currentPosition := 60,
       maxExtension := 200, isInitialized := true, name := "A",
       speed := 5 } : Contractor).currentPosition > 50 ∧
    ({ currentState := ContractorState.ERROR, currentPosition := 60,
       maxExtension := 200, isInitialized := true, name := "A",
       speed := 5 } : Contractor).stop.currentState =
      ContractorState.ERROR := by decide

/-- C5 (amended): `stop()` changes nothing when the motion state is
settled (`EXTENDED`/`RETRACTED`) or `ERROR`; only from the mid-motion
states `EXTENDING`/`RETRACTING` does it apply the midpoint snap rule —
`EXTENDED` when position > 50, `RETRACTED` otherwise — and it never
changes the position itself. -/
theorem C5_stop_midpoint (c : Contractor) :
    ((c.currentState = .EXTENDED ∨ c.currentState = .RETRACTED ∨
        c.currentState = .ERROR) → c.stop = c) ∧
    ((c.currentState = .EXTENDING ∨ c.currentState = .RETRACTING) →
       c.stop.currentState =
         (if c.currentPosition > 50 then .EXTENDED else .RETRACTED)) ∧
    c.stop.currentPosition = c.currentPosition := by
  obtain ⟨st, pos, mx, ini, nm, sp⟩ := c
  cases st <;> simp [Contractor.stop]

theorem C5_witness :
    ({ currentState := ContractorState.EXTENDING, currentPosition := 60,
       maxExtension := 200, isInitialized := true, name := "A",
       speed := 5 } : Contractor).stop.currentState =
      ContractorState.EXTENDED :=
  ((C5_stop_midpoint _).2.1 (Or.inl rfl)).trans (by decide)

/-- C6: `emergencyStop()` succeeds unconditionally: it stops the
actuator (applying its midpoint snap rule) and sets the door state to
`OPEN` when the actuator position exceeds 50 and `CLOSED_UNLOCKED`
otherwise; it never produces `ERROR_STATE`, never moves the lock
servo, and never changes the actuator position; invoked mid-`OPENING`
with the actuator at position 60 it leaves the controller `OPEN`. -/
theorem C6_emergency_stop (d : SmartDoor) :
    d.emergencyStop =
      { d with doorActuator := d.doorActuator.stop,
               currentState :=
                 if d.doorActuator.stop.getPosition > 50 then .OPEN
                 else .CLOSED_UNLOCKED } ∧
    d.emergencyStop.currentState ≠ .ERROR_STATE ∧
    d.emergencyStop.lockServo = d.lockServo ∧
    d.emergencyStop.doorActuator.getPosition =
      d.doorActuator.getPosition ∧
    ({ lockServo :=
         { currentAngle := 90, minAngle := 0, maxAngle := 180,
           isCalibrated := true, name := "L" },
       doorActuator :=
         { currentState := ContractorState.EXTENDING,
           currentPosition := 60, maxExtension := 250,
           isInitialized := true, name := "A", speed := 5 },
       currentState := DoorState.OPENING, isSystemReady := true,
       doorId := "D6",
       openAttempts := 0 } : SmartDoor).emergencyStop.currentState =
      DoorState.OPEN := by
  refine ⟨rfl, ?_, rfl, ?_, by decide⟩
  · unfold SmartDoor.emergencyStop
    dsimp only
    split <;> simp
  · unfold SmartDoor.emergencyStop Contractor.stop Contractor.getPosition
    dsimp only
    split <;> rfl

/-- C7: the fresh controller scenario — `initialize()` returns true
with state `CLOSED_LOCKED`, system ready, lock angle 0 and actuator
position 0; then `open()` returns true with state `OPEN`, lock angle
90 and actuator position 100; then `close()` returns true with state
`CLOSED_LOCKED`, lock angle 0 and actuator position 0. -/
theorem C7_init_open_close_scenario :
    (SmartDoor.new "D1").init.1 = true ∧
    (SmartDoor.new "D1").init.2.getState = DoorState.CLOSED_LOCKED ∧
    (SmartDoor.new "D1").init.2.isSystemReady = true ∧
    (SmartDoor.new "D1").init.2.lockServo.getAngle = 0 ∧
    (SmartDoor.new "D1").init.2.doorActuator.getPosition = 0 ∧
    (SmartDoor.new "D1").init.2.openDoor.1 = true ∧
    (SmartDoor.new "D1").init.2.openDoor.2.getState = DoorState.OPEN ∧
    (SmartDoor.new "D1").init.2.openDoor.2.lockServo.getAngle = 90 ∧
    (SmartDoor.new "D1").init.2.openDoor.2.doorActuator.getPosition = 100 ∧
    (SmartDoor.new "D1").init.2.openDoor.2.closeDoor.1 = true ∧
    (SmartDoor.new "D1").init.2.openDoor.2.closeDoor.2.getState =
      DoorState.CLOSED_LOCKED ∧
    (SmartDoor.new "D1").init.2.openDoor.2.closeDoor.2.lockServo.getAngle
      = 0 ∧
    (SmartDoor.new "D1").init.2.openDoor.2.closeDoor.2.doorActuator.getPosition
      = 0 := by decide

/-- C8: for every servo state and every integer `a`: within
`[minAngle, maxAngle]` (fixed to [0,180] by the constructor),
`setAngle a` succeeds and a subsequent `getAngle` returns `a`,
regardless of the calibration flag (the uncalibrated warning is
non-fatal); outside the range `setAngle a` fails and the stored
angle is unchanged. -/
theorem C8_setAngle_range (s : Servo) (a : Int) :
    s.setAngle a =
      (if a < s.minAngle ∨ a > s.maxAngle then (false, s)
       else (true, { s with currentAngle := a })) ∧
    (s.setAngle a).2.getAngle =
      (if a < s.minAngle ∨ a > s.maxAngle then s.getAngle else a) ∧
    (∀ n : String, (Servo.new n).minAngle = 0 ∧
       (Servo.new n).maxAngle = 180) := by
  refine ⟨rfl, ?_, fun n => ⟨rfl, rfl⟩⟩
  unfold Servo.setAngle Servo.getAngle
  split <;> rfl

/-- C9: on every initialized actuator, `extend()` then `retract()`
both succeed and the round trip ends at position 0 in state
`RETRACTED`. -/
theorem C9_extend_retract_round_trip (c : Contractor)
    (h : c.isInitialized = true) :
    c.extend.1 = true ∧ c.extend.2.retract.1 = true ∧
    c.extend.2.retract.2.getPosition = 0 ∧
    c.extend.2.retract.2.getState = ContractorState.RETRACTED := by
  obtain ⟨st, pos, mx, ini, nm, sp⟩ := c
  simp only at h
  subst h
  by_cases hst : st = ContractorState.EXTENDED <;>
    simp +decide [Contractor.extend, Contractor.retract,
      Contractor.getPosition, Contractor.getState, hst]

theorem C9_witness :
    (Contractor.new "A" 200).init.2.isInitialized = true ∧
    ((Contractor.new "A" 200).init.2.extend.1 = true ∧
     (Contractor.new "A" 200).init.2.extend.2.retract.1 = true ∧
     (Contractor.new "A" 200).init.2.extend.2.retract.2.getPosition = 0 ∧
     (Contractor.new "A" 200).init.2.extend.2.retract.2.getState =
       ContractorState.RETRACTED) :=
  ⟨by decide, C9_extend_retract_round_trip _ (by decide)⟩

/-- C10: no sequence of public operations from a freshly constructed
actuator ever reaches the `ERROR` motion state; consequently in every
reachable state `isReady()` returns exactly the `isInitialized` flag,
the position is always 0 or 100, and it is 100 exactly when the
motion state is `EXTENDED`. -/
theorem C10_contractor_reachable (c : Contractor) (h : c.Reachable) :
    c.currentState ≠ ContractorState.ERROR ∧
    c.isReady = c.isInitialized ∧
    (c.currentPosition = 0 ∨ c.currentPosition = 100) ∧
    (c.currentPosition = 100 ↔
       c.currentState = ContractorState.EXTENDED) := by
  obtain ⟨h1, h2, h3, h4⟩ := Contractor.inv_of_reachable h
  refine ⟨?_, ?_, h2, h3⟩
  · rcases h1 with h1 | h1 <;> simp [h1]
  · rcases h1 with h1 | h1 <;> simp [Contractor.isReady, h1]

theorem C10_witness :
    (Contractor.new "W" 200).currentState ≠ ContractorState.ERROR ∧
    (Contractor.new "W" 200).isReady =
      (Contractor.new "W" 200).isInitialized ∧
    ((Contractor.new "W" 200).currentPosition = 0 ∨
     (Contractor.new "W" 200).currentPosition = 100) ∧
    ((Contractor.new "W" 200).currentPosition = 100 ↔
     (Contractor.new "W" 200).currentState = ContractorState.EXTENDED) :=
  C10_contractor_reachable _ (Contractor.Reachable.base "W" 200)
